import Mathlib

/-!
Verification of the asynchronous batch runner `04_Mortgage_Services.py`.

This file gives a shallow embedding of the runner's components:

* `_async_retry` (lines 46-65): modelled by `asyncRetry`.  The unit of work
  `coro_factory` is modelled as a function from the 0-based attempt number to
  an `Except` outcome; `np.random.random()` draws are modelled by a stream
  `rand : Nat → ℚ` of numbers in `[0,1)`; the real-valued delays are modelled
  over `ℚ`.  Raising an exception is `Except.error`; the final
  `raise last_exc` with the never-assigned `last_exc = None` sentinel is the
  distinguished outcome `RetryOutcome.sentinelNone`.
* `process_row` (lines 98-140): modelled by `rowRecord` / `processRow`; the
  agent run result object is `RunValue` (its `final_output` attribute is an
  optional field list, so that `getattr` failures are `none`).
* `amain` (lines 143-230): modelled by `amain` over a `Table` of cells; the
  scheduler's completion order for `asyncio.as_completed` is an explicit
  parameter `order`, and the external agent calls are a parameter
  `call : Nat → Bool → Except Unit RunValue` (row index, offshore flag).
* The semaphore of lines 183-184 and 114-117 is modelled by a small labelled
  transition system `GateStep` over per-row task phases.
-/

/-- The possible ways `_async_retry` can finish.  `attempts` counts how many
times the unit of work `coro_factory` was invoked.  `exhausted e n` is the
final `raise last_exc` with `last_exc = some e` after `n` invocations;
`sentinelNone` is `raise last_exc` with the never-assigned sentinel
`last_exc = None` (no invocation happened at all). -/
inductive RetryOutcome (E A : Type) where
  | success (a : A) (attempts : Nat)
  | exhausted (e : E) (attempts : Nat)
  | sentinelNone
deriving DecidableEq

/-- Line 58 of the source: `delay = min(max_delay, base_delay * (2 ** attempt))`. -/
def backoffDelay (baseDelay maxDelay : ℚ) (attempt : Nat) : ℚ :=
  min maxDelay (baseDelay * 2 ^ attempt)

/-- Lines 59-60 of the source: the amount actually slept after a failed
attempt, `max(0.0, delay + (2*u - 1.0) * jitter * delay)` where `u` is the
`np.random.random()` draw. -/
def retrySleep (baseDelay maxDelay jitter u : ℚ) (attempt : Nat) : ℚ :=
  max 0 (backoffDelay baseDelay maxDelay attempt +
    (2 * u - 1) * jitter * backoffDelay baseDelay maxDelay attempt)

/-- The `while attempt <= retries` loop of `_async_retry`, lines 49-64.
`attempt` is the current 0-based attempt counter and `remaining` is
`retries - attempt`, so the guard `attempt <= retries` holds on entry.
Returns the outcome together with the list of delays slept, in order. -/
def asyncRetryGo {E A : Type} (work : Nat → Except E A) (rand : Nat → ℚ)
    (baseDelay maxDelay jitter : ℚ) : Nat → Nat → RetryOutcome E A × List ℚ
  | attempt, remaining =>
    match work attempt with
    | .ok a => (.success a (attempt + 1), [])
    | .error e =>
      match remaining with
      | 0 => (.exhausted e (attempt + 1), [])
      | r + 1 =>
        let s := retrySleep baseDelay maxDelay jitter (rand attempt) attempt
        let rest := asyncRetryGo work rand baseDelay maxDelay jitter (attempt + 1) r
        (rest.1, s :: rest.2)

/-- `_async_retry` (lines 46-65).  When `retries < 0` the loop guard
`attempt <= retries` fails immediately, no attempt is made and the function
raises the unassigned sentinel. -/
def asyncRetry {E A : Type} (work : Nat → Except E A) (rand : Nat → ℚ)
    (baseDelay maxDelay jitter : ℚ) (retries : Int) : RetryOutcome E A × List ℚ :=
  if retries < 0 then (.sentinelNone, [])
  else asyncRetryGo work rand baseDelay maxDelay jitter 0 retries.toNat

/-- A spreadsheet / payload value.  `nan`, `inf` and `negInf` model the float
specials that lines 172-173 of the source normalize away. -/
inductive Cell where
  | num (q : ℚ)
  | str (s : String)
  | nan
  | inf
  | negInf
deriving DecidableEq, Inhabited

/-- The agent run result object as observed by `process_row`: `final_output`
is `none` when the object has no usable `final_output` attribute (unexpected
shape), otherwise a list of named fields. -/
structure RunValue where
  final_output : Option (List (String × Cell))
deriving DecidableEq

/-- `_safe` (lines 119-123): `getattr(o.final_output, attr)` with default
`None` whenever the attribute access fails for any reason (missing
`final_output`, missing field). -/
def safeAttr (o : RunValue) (attr : String) : Option Cell :=
  match o.final_output with
  | none => none
  | some fields => fields.lookup attr

/-- The result record built by `process_row`, lines 125-140: a dict of the
fourteen output columns, each extracted defensively with `_safe`. -/
def rowRecord (onv offv : RunValue) : List (String × Option Cell) :=
  [("Onshore_High_Scenario_Vectors", safeAttr onv "high_scenario"),
   ("Onshore_Medium_Scenario_Vectors", safeAttr onv "medium_scenario"),
   ("Onshore_Low_Scenario_Vectors", safeAttr onv "low_scenario"),
   ("Onshore_High_Scenario_Reasoning", safeAttr onv "high_scenario_reasoning"),
   ("Onshore_Medium_Scenario_Reasoning", safeAttr onv "medium_scenario_reasoning"),
   ("Onshore_Low_Scenario_Reasoning", safeAttr onv "low_scenario_reasoning"),
   ("Onshore_CourseWork", safeAttr onv "online_coursework"),
   ("Offshore_High_Scenario_Vectors", safeAttr offv "high_scenario"),
   ("Offshore_Medium_Scenario_Vectors", safeAttr offv "medium_scenario"),
   ("Offshore_Low_Scenario_Vectors", safeAttr offv "low_scenario"),
   ("Offshore_High_Scenario_Reasoning", safeAttr offv "high_scenario_reasoning"),
   ("Offshore_Medium_Scenario_Reasoning", safeAttr offv "medium_scenario_reasoning"),
   ("Offshore_Low_Scenario_Reasoning", safeAttr offv "low_scenario_reasoning"),
   ("Offshore_CourseWork", safeAttr offv "online_coursework")]

/-- The (column, offshore-flag, source-attribute) triples underlying
`rowRecord`, in record order. -/
def fieldSpec : List (String × Bool × String) :=
  [("Onshore_High_Scenario_Vectors", false, "high_scenario"),
   ("Onshore_Medium_Scenario_Vectors", false, "medium_scenario"),
   ("Onshore_Low_Scenario_Vectors", false, "low_scenario"),
   ("Onshore_High_Scenario_Reasoning", false, "high_scenario_reasoning"),
   ("Onshore_Medium_Scenario_Reasoning", false, "medium_scenario_reasoning"),
   ("Onshore_Low_Scenario_Reasoning", false, "low_scenario_reasoning"),
   ("Onshore_CourseWork", false, "online_coursework"),
   ("Offshore_High_Scenario_Vectors", true, "high_scenario"),
   ("Offshore_Medium_Scenario_Vectors", true, "medium_scenario"),
   ("Offshore_Low_Scenario_Vectors", true, "low_scenario"),
   ("Offshore_High_Scenario_Reasoning", true, "high_scenario_reasoning"),
   ("Offshore_Medium_Scenario_Reasoning", true, "medium_scenario_reasoning"),
   ("Offshore_Low_Scenario_Reasoning", true, "low_scenario_reasoning"),
   ("Offshore_CourseWork", true, "online_coursework")]

/-- `process_row` after the semaphore section (lines 114-140), as a function
of the outcomes of its two `call_agent` invocations: `asyncio.gather`
propagates an exception of either branch, so the record is only built when
both calls succeeded. -/
def processRow {E : Type} (onRes offRes : Except E RunValue) :
    Except E (List (String × Option Cell)) :=
  match onRes, offRes with
  | .ok onv, .ok offv => .ok (rowRecord onv offv)
  | .error e, _ => .error e
  | .ok _, .error e => .error e

/-- The column names of the all-null fallback record, lines 204-210. -/
def resultColumns : List String :=
  ["Onshore_High_Scenario_Vectors", "Onshore_Medium_Scenario_Vectors",
   "Onshore_Low_Scenario_Vectors", "Onshore_High_Scenario_Reasoning",
   "Onshore_Medium_Scenario_Reasoning", "Onshore_Low_Scenario_Reasoning",
   "Onshore_CourseWork", "Offshore_High_Scenario_Vectors",
   "Offshore_Medium_Scenario_Vectors", "Offshore_Low_Scenario_Vectors",
   "Offshore_High_Scenario_Reasoning", "Offshore_Medium_Scenario_Reasoning",
   "Offshore_Low_Scenario_Reasoning", "Offshore_CourseWork"]

/-- `res = {k: None for k in [...]}`, lines 204-210. -/
def nullRecord : List (String × Option Cell) :=
  resultColumns.map (fun c => (c, none))

/-- The `try res = await fut / except` body of the collection loop,
lines 199-210: a row task that raised is replaced by the all-null record. -/
def collectOne {E : Type} (res : Except E (List (String × Option Cell))) :
    List (String × Option Cell) :=
  match res with
  | .ok r => r
  | .error _ => nullRecord

/-- Line 183: `max_conc = max(1, int(args.max_concurrency))`. -/
def maxConc (maxConcurrency : Int) : Int := max 1 maxConcurrency

/-- A worksheet as read by `pd.read_excel`: named columns and rows of cells
(row `r` holds one cell per column, positionally). -/
structure Table where
  cols : List String
  rows : List (List Cell)
deriving DecidableEq

/-- Line 172: `df.replace([np.inf, -np.inf], np.nan, inplace=True)`. -/
def replaceInf : Cell → Cell
  | .inf => .nan
  | .negInf => .nan
  | c => c

/-- Line 173: `df.fillna(0, inplace=True)`. -/
def fillZero : Cell → Cell
  | .nan => .num 0
  | c => c

/-- Lines 172-173 applied to the whole table. -/
def Table.clean (t : Table) : Table :=
  ⟨t.cols, t.rows.map (fun r => r.map (fun c => fillZero (replaceInf c)))⟩

/-- Numeric view of a cell, as used by `float(...)` and the capacity row sum
(non-numeric cells contribute 0). -/
def cellQ : Cell → ℚ
  | .num q => q
  | _ => 0

/-- `df[c]` as a list of cells, `none` when the column is absent. -/
def Table.getCol (t : Table) (c : String) : Option (List Cell) :=
  (t.cols.findIdx? (fun x => x == c)).map
    (fun j => t.rows.map (fun r => r.getD j Cell.nan))

/-- `df[c] = vals`: overwrite the column when present, append it otherwise. -/
def Table.setCol (t : Table) (c : String) (vals : List Cell) : Table :=
  match t.cols.findIdx? (fun x => x == c) with
  | some j => ⟨t.cols, (t.rows.zip vals).map (fun p => p.1.set j p.2)⟩
  | none => ⟨t.cols ++ [c], (t.rows.zip vals).map (fun p => p.1 ++ [p.2])⟩

/-- Line 175: the optional onshore capacity source columns.  The third name
carries a trailing space, exactly as written in the source. -/
def onshoreSourceCols : List String :=
  ["ONSHORE TEAMMATE", "ONSHORE CW", "Est. Size- ONSHORE "]

/-- Lines 171-177 of `amain`: normalize infinities and missing values to 0,
then derive `ONSHORE` (the row-wise sum of whichever source columns are
present, or the scalar 0 when none is) and `OFFSHORE` (a copy of
`Est. Size- OFFSHORE` when present, else the scalar 0). -/
def prepare (t0 : Table) : Table :=
  let t := t0.clean
  let onCols := onshoreSourceCols.filter (fun c => t.cols.contains c)
  let onVals :=
    if onCols.isEmpty then t.rows.map (fun _ => Cell.num 0)
    else t.rows.map (fun r =>
      Cell.num ((onCols.map (fun c =>
        match t.cols.findIdx? (fun x => x == c) with
        | some j => cellQ (r.getD j Cell.nan)
        | none => 0)).sum))
  let t1 := t.setCol "ONSHORE" onVals
  let offVals :=
    match t1.getCol "Est. Size- OFFSHORE" with
    | some vs => vs
    | none => t1.rows.map (fun _ => Cell.num 0)
  t1.setCol "OFFSHORE" offVals

/-- Lines 188-211 of `amain`: one `process_row` task per row, awaited with
`asyncio.as_completed`.  `order` is the completion order the scheduler
happens to produce (a permutation of the task indices), and the collected
result list is in that completion order, a failed task contributing the
all-null record. -/
def amainResults (n : Nat) (call : Nat → Bool → Except Unit RunValue)
    (order : List Nat) : List (List (String × Option Cell)) :=
  order.map (fun i =>
    collectOne (((List.range n).map
      (fun k => processRow (call k false) (call k true))).getD i (.error ())))

/-- The observable outcome of one `amain` run: its return (exit) code, how
many row tasks were created, the semaphore capacity when one was created, and
the written output (the prepared input table joined column-wise with the
collected result records, `pd.concat(..., axis=1)` of line 217) when the
write happened. -/
structure AmainOutcome where
  exitCode : Nat
  tasksCreated : Nat
  gateCapacity : Option Int
  written : Option (Table × List (List (String × Option Cell)))
deriving DecidableEq

/-- `amain` (lines 143-230).  External effects are parameters: whether the
input path exists, the result of reading the worksheet, the agent call
outcomes per (row, offshore-flag), the completion order of the row tasks and
whether the final Excel write succeeds.  Returns 2 before creating any task
when the input is missing or unreadable, and 2 after processing when the
write fails. -/
def amain (inputExists : Bool) (readResult : Except Unit Table) (limit : Option Nat)
    (maxConcurrency : Int) (call : Nat → Bool → Except Unit RunValue)
    (order : List Nat) (writeOk : Bool) : AmainOutcome :=
  if !inputExists then ⟨2, 0, none, none⟩
  else
    match readResult with
    | .error _ => ⟨2, 0, none, none⟩
    | .ok t0 =>
      let t1 := prepare t0
      let df := match limit with
        | some l => ⟨t1.cols, t1.rows.take l⟩
        | none => t1
      let n := df.rows.length
      let cap := maxConc maxConcurrency
      let results := amainResults n call order
      if writeOk then ⟨0, n, some cap, some (df, results)⟩
      else ⟨2, n, some cap, none⟩

/-- The 3-row end-to-end input of claim C7 with its columns named literally
as the claim writes them (`"Est. Size- ONSHORE"`, no trailing space). -/
def c7Table : Table :=
  ⟨["Function / Process Name", "Est. Size- ONSHORE", "Est. Size- OFFSHORE"],
   [[Cell.str "Loan Review", Cell.num 5, Cell.num 0],
    [Cell.str "Statement Processing", Cell.num 3, Cell.num 2],
    [Cell.str "Fraud Ops", Cell.num 0, Cell.num 4]]⟩

/-- The same 3-row input with the onshore capacity column named
`"Est. Size- ONSHORE "` — the trailing-space name the source looks up. -/
def c7TableSpace : Table :=
  ⟨["Function / Process Name", "Est. Size- ONSHORE ", "Est. Size- OFFSHORE"],
   [[Cell.str "Loan Review", Cell.num 5, Cell.num 0],
    [Cell.str "Statement Processing", Cell.num 3, Cell.num 2],
    [Cell.str "Fraud Ops", Cell.num 0, Cell.num 4]]⟩

/-- A fixed structured payload with every expected field present. -/
def stubPayload : RunValue :=
  ⟨some [("high_scenario", Cell.num 1), ("medium_scenario", Cell.num 2),
    ("low_scenario", Cell.num 3), ("high_scenario_reasoning", Cell.str "hi"),
    ("medium_scenario_reasoning", Cell.str "med"),
    ("low_scenario_reasoning", Cell.str "lo"),
    ("online_coursework", Cell.str "cw")]⟩

/-- A stubbed call executor that always succeeds with `stubPayload`. -/
def stubCall : Nat → Bool → Except Unit RunValue := fun _ _ => .ok stubPayload

/-- A 2-row input for exercising the result collection order. -/
def c1Table : Table :=
  ⟨["Function / Process Name"],
   [[Cell.str "Loan Review"], [Cell.str "Fraud Ops"]]⟩

/-- Distinct successful payloads for input rows 0 and 1. -/
def callAB : Nat → Bool → Except Unit RunValue := fun i _ =>
  if i = 0 then .ok (RunValue.mk (some [("high_scenario", Cell.num 10)]))
  else .ok (RunValue.mk (some [("high_scenario", Cell.num 20)]))

/-- The phase of one `process_row` task relative to the semaphore of lines
114-117: not yet at the `async with sem` statement, waiting to acquire it,
inside the guarded section (the paired onshore/offshore calls in flight), or
past the guarded section. -/
inductive TaskPhase where
  | idle
  | waiting
  | holding
  | released
deriving DecidableEq

/-- One row task's state: its gate phase and whether its result record
(lines 125-140, textually after the guarded section) has been built. -/
structure RowTask where
  phase : TaskPhase
  recordBuilt : Bool
deriving DecidableEq

/-- How many row tasks are currently inside the semaphore-guarded section. -/
def holdingCount (s : List RowTask) : Nat :=
  s.countP (fun t => t.phase == TaskPhase.holding)

/-- The cooperative-scheduling steps of the row tasks around
`sem = asyncio.Semaphore(k)` (line 184): a task reaches the gate, acquires it
only while fewer than `k` tasks hold it, releases it at the end of the
`async with` block, and only afterwards builds its result record. -/
inductive GateStep (k : Nat) : List RowTask → List RowTask → Prop where
  | start (s : List RowTask) (i : Nat) (t : RowTask) (hget : s.get? i = some t)
      (hp : t.phase = TaskPhase.idle) :
      GateStep k s (s.set i ⟨TaskPhase.waiting, t.recordBuilt⟩)
  | acquire (s : List RowTask) (i : Nat) (t : RowTask) (hget : s.get? i = some t)
      (hp : t.phase = TaskPhase.waiting) (hcap : holdingCount s < k) :
      GateStep k s (s.set i ⟨TaskPhase.holding, t.recordBuilt⟩)
  | free (s : List RowTask) (i : Nat) (t : RowTask) (hget : s.get? i = some t)
      (hp : t.phase = TaskPhase.holding) :
      GateStep k s (s.set i ⟨TaskPhase.released, t.recordBuilt⟩)
  | build (s : List RowTask) (i : Nat) (t : RowTask) (hget : s.get? i = some t)
      (hp : t.phase = TaskPhase.released) :
      GateStep k s (s.set i ⟨TaskPhase.released, true⟩)

/-- All `n` row tasks before any has touched the gate. -/
def initTasks (n : Nat) : List RowTask :=
  List.replicate n ⟨TaskPhase.idle, false⟩

/-- States reachable by interleaving the `n` row tasks from the start
state under gate capacity `k`. -/
inductive GateReachable (k n : Nat) : List RowTask → Prop where
  | init : GateReachable k n (initTasks n)
  | step (s u : List RowTask) (hs : GateReachable k n s) (hsu : GateStep k s u) :
      GateReachable k n u

theorem asyncRetryGo_ok {E A : Type} (work : Nat → Except E A) (rand : Nat → ℚ)
    (b m j : ℚ) (attempt remaining : Nat) (a : A) (h : work attempt = .ok a) :
    asyncRetryGo work rand b m j attempt remaining = (.success a (attempt + 1), []) := by
  unfold asyncRetryGo
  rw [h]

theorem asyncRetryGo_err_zero {E A : Type} (work : Nat → Except E A) (rand : Nat → ℚ)
    (b m j : ℚ) (attempt : Nat) (e : E) (h : work attempt = .error e) :
    asyncRetryGo work rand b m j attempt 0 = (.exhausted e (attempt + 1), []) := by
  unfold asyncRetryGo
  rw [h]

theorem asyncRetryGo_err_succ {E A : Type} (work : Nat → Except E A) (rand : Nat → ℚ)
    (b m j : ℚ) (attempt r : Nat) (e : E) (h : work attempt = .error e) :
    asyncRetryGo work rand b m j attempt (r + 1) =
      ((asyncRetryGo work rand b m j (attempt + 1) r).1,
        retrySleep b m j (rand attempt) attempt ::
          (asyncRetryGo work rand b m j (attempt + 1) r).2) := by
  conv_lhs => rw [asyncRetryGo]
  rw [h]

theorem asyncRetryGo_allFail {E A : Type} (work : Nat → Except E A) (err : Nat → E)
    (rand : Nat → ℚ) (b m j : ℚ) (hw : ∀ i, work i = .error (err i)) :
    ∀ remaining attempt, (asyncRetryGo work rand b m j attempt remaining).1 =
      .exhausted (err (attempt + remaining)) (attempt + remaining + 1) := by
  intro remaining
  induction remaining with
  | zero =>
    intro attempt
    rw [asyncRetryGo_err_zero work rand b m j attempt (err attempt) (hw attempt)]
    simp
  | succ r ih =>
    intro attempt
    rw [asyncRetryGo_err_succ work rand b m j attempt r (err attempt) (hw attempt)]
    have h := ih (attempt + 1)
    have e1 : attempt + 1 + r = attempt + (r + 1) := by omega
    simp only [h, e1]

/-- Claim C2: with `retries = r ≥ 0` and a unit of work failing on every
invocation, `_async_retry` invokes the work exactly `r + 1` times and then
raises the last underlying error (the retries-exhausted failure carries
`err r`, the error of the final attempt). -/
theorem retriesExhausted_after_r_plus_one {E A : Type} (work : Nat → Except E A)
    (err : Nat → E) (rand : Nat → ℚ) (b m j : ℚ) (r : Nat)
    (hw : ∀ i, work i = .error (err i)) :
    (asyncRetry work rand b m j (r : Int)).1 = .exhausted (err r) (r + 1) := by
  have hnn : ¬((r : Int) < 0) := by omega
  have h := asyncRetryGo_allFail work err rand b m j hw r 0
  simpa [asyncRetry, hnn] using h

theorem retriesExhausted_after_r_plus_one_witness :
    (asyncRetry (fun _ => (Except.error 7 : Except Nat Nat)) (fun _ => 0) 1 15 (1/4)
      ((2 : Nat) : Int)).1 = RetryOutcome.exhausted 7 3 :=
  retriesExhausted_after_r_plus_one (fun _ => Except.error 7) (fun _ => 7)
    (fun _ => 0) 1 15 (1/4) 2 (fun _ => rfl)

/-- Claim C10: with `retries < 0` the `while attempt <= retries` loop never
runs, so the unit of work is never invoked (the outcome is the same for every
`work`, with no recorded attempt) and `_async_retry` raises the never-assigned
`last_exc` sentinel (`None`), an error that does not come from the work. -/
theorem negativeRetries_raises_sentinel {E A : Type} (rand : Nat → ℚ)
    (b m j : ℚ) (retries : Int) (h : retries < 0) :
    ∀ work : Nat → Except E A,
      asyncRetry work rand b m j retries = (RetryOutcome.sentinelNone, []) := by
  intro work
  simp [asyncRetry, h]

theorem negativeRetries_raises_sentinel_witness :
    asyncRetry (fun i => (Except.ok i : Except Nat Nat)) (fun _ => 0) 1 15 (1/4) (-1)
      = (RetryOutcome.sentinelNone, []) :=
  negativeRetries_raises_sentinel (fun _ => 0) 1 15 (1/4) (-1) (by decide)
    (fun i => Except.ok i)

theorem asyncRetryGo_sleep_eq {E A : Type} (work : Nat → Except E A) (rand : Nat → ℚ)
    (b m j : ℚ) :
    ∀ remaining attempt k,
      k < (asyncRetryGo work rand b m j attempt remaining).2.length →
      (asyncRetryGo work rand b m j attempt remaining).2.getD k 0 =
        retrySleep b m j (rand (attempt + k)) (attempt + k) := by
  intro remaining
  induction remaining with
  | zero =>
    intro attempt k hk
    rcases hwa : work attempt with e | a
    · rw [asyncRetryGo_err_zero work rand b m j attempt e hwa] at hk
      simp at hk
    · rw [asyncRetryGo_ok work rand b m j attempt 0 a hwa] at hk
      simp at hk
  | succ r ih =>
    intro attempt k hk
    rcases hwa : work attempt with e | a
    · rw [asyncRetryGo_err_succ work rand b m j attempt r e hwa] at hk ⊢
      cases k with
      | zero => simp
      | succ k =>
        simp only [List.length_cons, Nat.succ_lt_succ_iff] at hk
        have h := ih (attempt + 1) k hk
        have e1 : attempt + 1 + k = attempt + (k + 1) := by omega
        simp only [List.getD_cons_succ]
        rw [h, e1]
    · rw [asyncRetryGo_ok work rand b m j attempt (r + 1) a hwa] at hk
      simp at hk

theorem retrySleep_bounds (b m j u : ℚ) (attempt : Nat)
    (hb : 0 ≤ b) (hm : 0 ≤ m) (hj : 0 ≤ j) (hu0 : 0 ≤ u) (hu1 : u ≤ 1) :
    backoffDelay b m attempt * (1 - j) ≤ retrySleep b m j u attempt ∧
      retrySleep b m j u attempt ≤ backoffDelay b m attempt * (1 + j) := by
  have hd0 : 0 ≤ backoffDelay b m attempt := le_min hm (by positivity)
  set d := backoffDelay b m attempt with hd
  have hjd : 0 ≤ j * d := mul_nonneg hj hd0
  constructor
  · rcases le_or_lt (1 - j) 0 with h1 | h1
    · have : d * (1 - j) ≤ 0 := mul_nonpos_of_nonneg_of_nonpos hd0 h1
      exact le_trans this (le_max_left 0 _)
    · have hle : d * (1 - j) ≤ d + (2 * u - 1) * j * d := by nlinarith
      exact le_trans hle (le_max_right 0 _)
  · apply max_le
    · nlinarith
    · nlinarith

/-- Claim C4: every delay slept by `_async_retry` between failed attempt `k`
and attempt `k + 1` lies in `[d*(1-jitter), d*(1+jitter)]` where
`d = min(max_delay, base_delay * 2^k)`: the exponential delay is clamped to
`max_delay` before the symmetric jitter is applied.  The hypotheses say the
configured delays and jitter are nonnegative and every random draw lies in
`[0,1]` (the `np.random.random()` range is `[0,1)`). -/
theorem backoff_within_jitter_band {E A : Type} (work : Nat → Except E A)
    (rand : Nat → ℚ) (b m j : ℚ) (retries : Int)
    (hb : 0 ≤ b) (hm : 0 ≤ m) (hj : 0 ≤ j)
    (hr : ∀ i, 0 ≤ rand i ∧ rand i ≤ 1) :
    ∀ k, k < (asyncRetry work rand b m j retries).2.length →
      backoffDelay b m k * (1 - j) ≤ (asyncRetry work rand b m j retries).2.getD k 0 ∧
        (asyncRetry work rand b m j retries).2.getD k 0 ≤ backoffDelay b m k * (1 + j) := by
  intro k hk
  by_cases hneg : retries < 0
  · simp [asyncRetry, hneg] at hk
  · simp only [asyncRetry, if_neg hneg] at hk ⊢
    have h := asyncRetryGo_sleep_eq work rand b m j retries.toNat 0 k hk
    simp only [Nat.zero_add] at h
    rw [h]
    exact retrySleep_bounds b m j (rand k) k hb hm hj (hr k).1 (hr k).2

theorem backoff_within_jitter_band_witness :
    0 < (asyncRetry (fun _ => (Except.error 0 : Except Nat Nat)) (fun _ => 1/2) 1 15 (1/4)
        ((2 : Nat) : Int)).2.length ∧
      (backoffDelay 1 15 0 * (1 - 1/4) ≤
          (asyncRetry (fun _ => (Except.error 0 : Except Nat Nat)) (fun _ => 1/2) 1 15 (1/4)
            ((2 : Nat) : Int)).2.getD 0 0 ∧
        (asyncRetry (fun _ => (Except.error 0 : Except Nat Nat)) (fun _ => 1/2) 1 15 (1/4)
            ((2 : Nat) : Int)).2.getD 0 0 ≤ backoffDelay 1 15 0 * (1 + 1/4)) := by
  refine ⟨by decide, ?_⟩
  exact backoff_within_jitter_band (fun _ => (Except.error 0 : Except Nat Nat))
    (fun _ => 1/2) 1 15 (1/4) ((2 : Nat) : Int) (by norm_num) (by norm_num) (by norm_num)
    (fun i => by norm_num) 0 (by decide)

theorem rowRecord_eq_fieldSpec_map (onv offv : RunValue) :
    rowRecord onv offv =
      fieldSpec.map (fun t => (t.1, safeAttr (cond t.2.1 offv onv) t.2.2)) := rfl

/-- Claim C3: when exactly one of a row's two agent calls fails after
exhausting retries and the other succeeds, the row's collected record is the
all-null record: all fourteen expected output fields are null, with nothing
of the successful branch mixed in. -/
theorem one_branch_failure_all_null {E : Type} (e : E) (good : RunValue)
    (onRes offRes : Except E RunValue)
    (h : (onRes = .error e ∧ offRes = .ok good) ∨
         (onRes = .ok good ∧ offRes = .error e)) :
    collectOne (processRow onRes offRes) = nullRecord ∧
      (collectOne (processRow onRes offRes)).length = 14 ∧
      ∀ p ∈ collectOne (processRow onRes offRes), p.2 = none := by
  have hnull : collectOne (processRow onRes offRes) = nullRecord := by
    rcases h with ⟨h1, h2⟩ | ⟨h1, h2⟩ <;> subst h1 <;> subst h2 <;> rfl
  refine ⟨hnull, ?_, ?_⟩
  · rw [hnull]; rfl
  · rw [hnull]; decide

theorem one_branch_failure_all_null_witness :
    collectOne (processRow (Except.error 0) (Except.ok (RunValue.mk (some [("high_scenario", Cell.num 1)])))) = nullRecord ∧
      (collectOne (processRow (Except.error 0) (Except.ok (RunValue.mk (some [("high_scenario", Cell.num 1)]))))).length = 14 ∧
      ∀ p ∈ collectOne (processRow (Except.error 0)
          (Except.ok (RunValue.mk (some [("high_scenario", Cell.num 1)])))), p.2 = none :=
  one_branch_failure_all_null 0 (RunValue.mk (some [("high_scenario", Cell.num 1)]))
    (Except.error 0) (Except.ok (RunValue.mk (some [("high_scenario", Cell.num 1)])))
    (Or.inl ⟨rfl, rfl⟩)

/-- Claim C8: when both agent calls of a row succeed, the row is never
aborted, and each of the fourteen output columns is extracted defensively
from its named source field: a missing `final_output` or a missing field
yields null for that one column, while any present field is extracted
normally into its column. -/
theorem malformed_field_null_only (onv offv : RunValue) (c : String) (side : Bool)
    (a : String) (hmem : (c, side, a) ∈ fieldSpec) :
    processRow (Except.ok onv : Except Unit RunValue) (Except.ok offv) =
        Except.ok (rowRecord onv offv) ∧
      ((cond side offv onv).final_output = none →
        (rowRecord onv offv).lookup c = some none) ∧
      (∀ fields, (cond side offv onv).final_output = some fields →
        fields.lookup a = none → (rowRecord onv offv).lookup c = some none) ∧
      (∀ fields v, (cond side offv onv).final_output = some fields →
        fields.lookup a = some v → (rowRecord onv offv).lookup c = some (some v)) := by
  have hlook : (rowRecord onv offv).lookup c = some (safeAttr (cond side offv onv) a) := by
    fin_cases hmem <;> rfl
  refine ⟨rfl, ?_, ?_, ?_⟩
  · intro h
    rw [hlook]
    simp [safeAttr, h]
  · intro fields h1 h2
    rw [hlook]
    simp [safeAttr, h1, h2]
  · intro fields v h1 h2
    rw [hlook]
    simp [safeAttr, h1, h2]

theorem malformed_field_null_only_witness :
    processRow (Except.ok (RunValue.mk (some [("medium_scenario", Cell.num 2)])) :
          Except Unit RunValue) (Except.ok (RunValue.mk (some []))) =
        Except.ok (rowRecord (RunValue.mk (some [("medium_scenario", Cell.num 2)]))
          (RunValue.mk (some []))) ∧
      (rowRecord (RunValue.mk (some [("medium_scenario", Cell.num 2)]))
          (RunValue.mk (some []))).lookup "Onshore_High_Scenario_Vectors" = some none ∧
      (rowRecord (RunValue.mk (some [("medium_scenario", Cell.num 2)]))
          (RunValue.mk (some []))).lookup "Onshore_Medium_Scenario_Vectors" =
        some (some (Cell.num 2)) := by
  obtain ⟨h1, _, h3, _⟩ := malformed_field_null_only
    (RunValue.mk (some [("medium_scenario", Cell.num 2)])) (RunValue.mk (some []))
    "Onshore_High_Scenario_Vectors" false "high_scenario" (by decide)
  obtain ⟨_, _, _, h4⟩ := malformed_field_null_only
    (RunValue.mk (some [("medium_scenario", Cell.num 2)])) (RunValue.mk (some []))
    "Onshore_Medium_Scenario_Vectors" false "medium_scenario" (by decide)
  exact ⟨h1, h3 _ rfl rfl, h4 _ _ rfl rfl⟩

/-- Claim C9: for every integer `--max-concurrency` value, including zero and
negative ones, the semaphore capacity `amain` computes is at least 1 (a
non-positive configuration never prevents progress), equals 1 whenever the
configured value is non-positive, and equals the configured value otherwise. -/
theorem gate_capacity_at_least_one (mc : Int) :
    1 ≤ maxConc mc ∧ (mc ≤ 0 → maxConc mc = 1) ∧ (1 ≤ mc → maxConc mc = mc) := by
  refine ⟨le_max_left 1 mc, ?_, ?_⟩
  · intro h
    simp [maxConc]
    omega
  · intro h
    simp [maxConc]
    omega

theorem gate_capacity_at_least_one_witness :
    1 ≤ maxConc (-3) ∧ maxConc (-3) = 1 :=
  ⟨(gate_capacity_at_least_one (-3)).1,
    (gate_capacity_at_least_one (-3)).2.1 (by decide)⟩

/-- Claim C6: when the input file does not exist or reading the worksheet
fails, `amain` returns the (non-zero, distinguishable) exit code 2, creates
no row task, and writes no output file. -/
theorem input_unavailable_aborts (inputExists : Bool) (readResult : Except Unit Table)
    (limit : Option Nat) (mc : Int) (call : Nat → Bool → Except Unit RunValue)
    (order : List Nat) (writeOk : Bool)
    (h : inputExists = false ∨ ∃ e, readResult = Except.error e) :
    (amain inputExists readResult limit mc call order writeOk).exitCode = 2 ∧
      (amain inputExists readResult limit mc call order writeOk).exitCode ≠ 0 ∧
      (amain inputExists readResult limit mc call order writeOk).tasksCreated = 0 ∧
      (amain inputExists readResult limit mc call order writeOk).written = none := by
  have key : amain inputExists readResult limit mc call order writeOk =
      ⟨2, 0, none, none⟩ := by
    rcases h with h | ⟨e, h⟩
    · subst h
      rfl
    · subst h
      cases inputExists <;> rfl
  rw [key]
  exact ⟨rfl, by decide, rfl, rfl⟩

theorem input_unavailable_aborts_witness :
    (amain false (Except.ok ⟨[], []⟩) none 8 (fun _ _ => Except.error ()) [] true).exitCode
        = 2 ∧
      (amain false (Except.ok ⟨[], []⟩) none 8 (fun _ _ => Except.error ()) [] true).exitCode
        ≠ 0 ∧
      (amain false (Except.ok ⟨[], []⟩) none 8 (fun _ _ => Except.error ()) [] true).tasksCreated
        = 0 ∧
      (amain false (Except.ok ⟨[], []⟩) none 8 (fun _ _ => Except.error ()) [] true).written
        = none :=
  input_unavailable_aborts false (Except.ok ⟨[], []⟩) none 8 (fun _ _ => Except.error ())
    [] true (Or.inl rfl)

/-- Claim C7 counterexample: running `amain` on the claim's 3-row table with
its columns named literally as the claim states them, the derived `ONSHORE`
column is `[0,0,0]`, not `[5,3,0]`: line 175 of the source looks up
`"Est. Size- ONSHORE "` with a trailing space, which does not match the
claim's `"Est. Size- ONSHORE"`. -/
theorem c7_literal_columns_onshore_not_derived :
    (amain true (Except.ok c7Table) none 8 stubCall [0, 1, 2] true).written =
        some (prepare c7Table, amainResults 3 stubCall [0, 1, 2]) ∧
      (prepare c7Table).getCol "ONSHORE" =
        some [Cell.num 0, Cell.num 0, Cell.num 0] ∧
      (prepare c7Table).getCol "ONSHORE" ≠
        some [Cell.num 5, Cell.num 3, Cell.num 0] := by
  refine ⟨rfl, by with_unfolding_all decide, by with_unfolding_all decide⟩

/-- Claim C7 (amended): the same scenario with the onshore capacity column
carrying the trailing space the source actually looks up.  For every
completion order the scheduler may produce: the output is written, its base
part is the prepared 3-row table whose derived `ONSHORE` column is
`[5,3,0]`, and there are exactly 3 result records, each carrying the
fourteen result columns with every field populated by the stub payload. -/
theorem c7_end_to_end_with_source_column_name (order : List Nat)
    (hperm : order.Perm (List.range 3)) :
    (amain true (Except.ok c7TableSpace) none 8 stubCall order true).written =
        some (prepare c7TableSpace, amainResults 3 stubCall order) ∧
      (prepare c7TableSpace).rows.length = 3 ∧
      (prepare c7TableSpace).getCol "ONSHORE" =
        some [Cell.num 5, Cell.num 3, Cell.num 0] ∧
      (amainResults 3 stubCall order).length = 3 ∧
      ∀ rec ∈ amainResults 3 stubCall order,
        rec.map Prod.fst = resultColumns ∧ ∀ p ∈ rec, p.2.isSome = true := by
  refine ⟨rfl, by with_unfolding_all decide, by with_unfolding_all decide, ?_, ?_⟩
  · have hlen := hperm.length_eq
    simp only [List.length_range] at hlen
    simpa [amainResults] using hlen
  · intro rec hrec
    obtain ⟨i, hi, rfl⟩ := List.mem_map.mp hrec
    have hi3 : i < 3 := by
      have := hperm.mem_iff.mp hi
      simpa using this
    interval_cases i <;>
      exact ⟨by with_unfolding_all decide, by with_unfolding_all decide⟩

theorem c7_end_to_end_with_source_column_name_witness :
    (amain true (Except.ok c7TableSpace) none 8 stubCall (List.range 3) true).written =
        some (prepare c7TableSpace, amainResults 3 stubCall (List.range 3)) ∧
      (prepare c7TableSpace).rows.length = 3 ∧
      (prepare c7TableSpace).getCol "ONSHORE" =
        some [Cell.num 5, Cell.num 3, Cell.num 0] ∧
      (amainResults 3 stubCall (List.range 3)).length = 3 ∧
      ∀ rec ∈ amainResults 3 stubCall (List.range 3),
        rec.map Prod.fst = resultColumns ∧ ∀ p ∈ rec, p.2.isSome = true :=
  c7_end_to_end_with_source_column_name (List.range 3) (List.Perm.refl _)

/-- Claim C1 fails on the code: `amain` appends results in
`asyncio.as_completed` (completion) order and `pd.concat` joins them to the
input rows positionally.  Evaluating the embedded `amain` on a 2-row table
whose row-1 task completes first (completion order `[1,0]`): the output does
have 2 rows, but output row 0 carries the scenario result produced from input
row 1, which differs from the result produced from input row 0. -/
theorem completion_order_misaligns_rows :
    (amain true (Except.ok c1Table) none 8 callAB [1, 0] true).written =
        some (prepare c1Table, amainResults 2 callAB [1, 0]) ∧
      (amainResults 2 callAB [1, 0]).length = 2 ∧
      (amainResults 2 callAB [1, 0]).getD 0 [] =
        collectOne (processRow (callAB 1 false) (callAB 1 true)) ∧
      (amainResults 2 callAB [1, 0]).getD 0 [] ≠
        collectOne (processRow (callAB 0 false) (callAB 0 true)) := by
  refine ⟨rfl, by with_unfolding_all decide, by with_unfolding_all decide,
    by with_unfolding_all decide⟩

theorem countP_set_balance (p : RowTask → Bool) :
    ∀ (s : List RowTask) (i : Nat) (t u : RowTask), s.get? i = some t →
      (s.set i u).countP p + (if p t then 1 else 0) =
        s.countP p + (if p u then 1 else 0) := by
  intro s
  induction s with
  | nil =>
    intro i t u h
    simp at h
  | cons x xs ih =>
    intro i t u h
    cases i with
    | zero =>
      simp only [List.get?_cons_zero, Option.some.injEq] at h
      subst h
      simp only [List.set_cons_zero, List.countP_cons]
      omega
    | succ n =>
      simp only [List.get?_cons_succ] at h
      have hx := ih n t u h
      simp only [List.set_cons_succ, List.countP_cons]
      omega

theorem holdingCount_initTasks (n : Nat) : holdingCount (initTasks n) = 0 := by
  induction n with
  | zero => rfl
  | succ m ih =>
    simp only [holdingCount, initTasks, List.replicate, List.countP_cons] at ih ⊢
    simp [ih]

theorem holdingCount_set (s : List RowTask) (i : Nat) (t u : RowTask)
    (h : s.get? i = some t) :
    holdingCount (s.set i u) + (if t.phase = TaskPhase.holding then 1 else 0) =
      holdingCount s + (if u.phase = TaskPhase.holding then 1 else 0) := by
  have hb := countP_set_balance (fun x => x.phase == TaskPhase.holding) s i t u h
  simpa [holdingCount, beq_iff_eq] using hb

/-- Claim C5: with gate capacity `k ≥ 1`, in every reachable interleaving
state at most `k` row tasks are simultaneously inside the semaphore-guarded
section containing the paired onshore/offshore calls, and every task whose
result record has been built has already released the gate (the record is
constructed only outside the guarded section). -/
theorem gate_bound_and_release_before_record (k n : Nat) (hk : 1 ≤ k)
    (s : List RowTask) (hs : GateReachable k n s) :
    holdingCount s ≤ k ∧
      ∀ t ∈ s, t.recordBuilt = true → t.phase = TaskPhase.released := by
  induction hs with
  | init =>
    refine ⟨by rw [holdingCount_initTasks]; exact Nat.zero_le k, ?_⟩
    intro t ht hb
    have htv : t = ⟨TaskPhase.idle, false⟩ := List.eq_of_mem_replicate ht
    subst htv
    simp at hb
  | step s u hs hsu ih =>
    obtain ⟨ihc, ihr⟩ := ih
    have hrec : ∀ (i : Nat) (w : RowTask),
        (w.recordBuilt = true → w.phase = TaskPhase.released) →
        ∀ x ∈ s.set i w, x.recordBuilt = true → x.phase = TaskPhase.released := by
      intro i w hw x hx hb
      rcases List.mem_or_eq_of_mem_set hx with hx | rfl
      · exact ihr x hx hb
      · exact hw hb
    cases hsu with
    | start i t hget hp =>
      have hb2 := holdingCount_set s i t ⟨TaskPhase.waiting, t.recordBuilt⟩ hget
      rw [hp] at hb2
      simp at hb2
      refine ⟨by omega, hrec i ⟨TaskPhase.waiting, t.recordBuilt⟩ ?_⟩
      intro hbt
      exfalso
      have hph := ihr t (List.get?_mem hget) hbt
      rw [hp] at hph
      simp at hph
    | acquire i t hget hp hcap =>
      have hb2 := holdingCount_set s i t ⟨TaskPhase.holding, t.recordBuilt⟩ hget
      rw [hp] at hb2
      simp at hb2
      refine ⟨by omega, hrec i ⟨TaskPhase.holding, t.recordBuilt⟩ ?_⟩
      intro hbt
      exfalso
      have hph := ihr t (List.get?_mem hget) hbt
      rw [hp] at hph
      simp at hph
    | free i t hget hp =>
      have hb2 := holdingCount_set s i t ⟨TaskPhase.released, t.recordBuilt⟩ hget
      rw [hp] at hb2
      simp at hb2
      refine ⟨by omega, hrec i ⟨TaskPhase.released, t.recordBuilt⟩ ?_⟩
      intro hbt
      rfl
    | build i t hget hp =>
      have hb2 := holdingCount_set s i t ⟨TaskPhase.released, true⟩ hget
      rw [hp] at hb2
      simp at hb2
      refine ⟨by omega, hrec i ⟨TaskPhase.released, true⟩ ?_⟩
      intro hbt
      rfl

theorem gate_bound_and_release_before_record_witness :
    holdingCount (initTasks 3) ≤ 1 ∧
      ∀ t ∈ initTasks 3, t.recordBuilt = true → t.phase = TaskPhase.released :=
  gate_bound_and_release_before_record 1 3 (by decide) (initTasks 3)
    GateReachable.init
